import Mathlib

/-!
Verification of `scripts/automations/get_match_tickets_info.py`
(component `TicketChangeNotifier` of the spec).

The script is embedded shallowly: each Python function becomes a Lean
function from an explicit configuration (the module-level environment
variables it reads) and a `World` (the outcomes the external services
would give to each call) to the list of observable events it emits plus
its result.  Exceptions are modelled by a Boolean "raised" component
(for the notification helpers) and by explicit result constructors
(for the fetch and for the whole run).
-/

namespace TicketNotifier

/-- Python `str` applied to a value read with `dict.get`: a missing key
gives `None`, and `str(None)` is the string `"None"`. -/
def pyStr : Option String → String
  | some s => s
  | none => "None"

/-- A ticket record from the response's `children` array.  `idx` and
`title` model `ticket.get("idx")` / `ticket.get("title")` (already
stringified when present; `none` = key absent); `raw` carries the rest
of the record so that "the record is appended unmodified" is visible. -/
structure Ticket where
  idx : Option String
  title : Option String
  raw : List (String × String)
  deriving DecidableEq, Repr

/-- The JSON body returned by the ticket endpoint:
`\x7bstatus?: bool, message?: string, children?: [...]\x7d`. -/
structure ApiResponse where
  status : Option Bool
  message : Option String
  children : Option (List Ticket)
  deriving DecidableEq, Repr

/-- Kind of a Python exception, as far as the script's handlers can
distinguish them: `reqExc` is a `requests.RequestException`, `otherExc`
is any other exception. -/
inductive ExcKind
  | reqExc
  | otherExc
  deriving DecidableEq, Repr

/-- What one HTTP GET of the ticket endpoint would do: return a parsed
body, or raise. -/
inductive AttemptOutcome
  | ok (resp : ApiResponse)
  | fail (k : ExcKind)
  deriving Repr

/-- The module-level configuration read from environment variables. -/
structure Config where
  knownIds : List String
  debugMode : Bool
  stopExecution : Bool
  webhookUrl : Option String
  deriving Repr

/-- Behaviour of the external services during one run: the outcome of
the n-th fetch attempt (1-indexed), whether the Twilio send raises, and
whether/how the webhook POST raises (`none` = delivered). -/
structure World where
  fetchOutcomes : Nat → AttemptOutcome
  smsFails : Bool
  webhookFailure : Option ExcKind

/-- The JSON payload posted to the webhook, shaped by the URL host. -/
inductive Payload
  | discord (content : String) (username : String)
  | slack (text : String)
  | generic (message : String) (tickets : List Ticket)
  deriving DecidableEq, Repr

/-- Observable events of a run, in order: log lines by severity, fetch
attempts and the sleeps between them, the external Twilio send, the
debug-mode console emission that replaces it, and the webhook POST. -/
inductive Event
  | fetchAttempt (n : Nat)
  | retryWait (d : Nat)
  | logInfo (s : String)
  | logWarning (s : String)
  | logError (s : String)
  | logDebug (s : String)
  | logCritical (s : String)
  | smsSend (body : String)
  | smsDebugLog (body : String)
  | webhookPost (url : String) (p : Payload)
  deriving DecidableEq, Repr

/-- How the process invocation ends: `main` returns, or an exception
escapes `main` (a crash). -/
inductive RunResult
  | normal
  | crashed
  deriving DecidableEq, Repr

/-- `send_message` (lines 42-60): in debug mode it only logs the body
and returns; otherwise it performs the Twilio call, which may raise.
Result: (events, raised?). -/
def send_message (cfg : Config) (w : World) (message : String) :
    List Event × Bool :=
  if cfg.debugMode then
    ([Event.logInfo "Debug mode is enabled. Skipping sending message and printing to console.",
      Event.smsDebugLog message], false)
  else if w.smsFails then
    ([Event.logInfo ("Sending message: " ++ message ++ " ..."),
      Event.smsSend message], true)
  else
    ([Event.logInfo ("Sending message: " ++ message ++ " ..."),
      Event.smsSend message,
      Event.logInfo "Message sent successfully"], false)

/-- The message text built by `send_webhook_notification` (lines 71-78). -/
def webhookMessage (new_tickets : List Ticket) : String :=
  String.intercalate "\n"
    ("🎫 **New Match Tickets Available!**\n" ::
      new_tickets.map (fun t =>
        "• " ++ t.title.getD "Unknown" ++ " (ID: " ++ t.idx.getD "Unknown" ++ ")"))

/-- Python `sub in s` on strings: substring containment. -/
def containsSub (s sub : String) : Bool :=
  decide (List.IsInfix sub.data s.data)

/-- Payload selection of `send_webhook_notification` (lines 80-97). -/
def mkPayload (url : String) (new_tickets : List Ticket) : Payload :=
  if containsSub url "discord.com" then
    Payload.discord (webhookMessage new_tickets) "Ticket Monitor"
  else if containsSub url "slack.com" then
    Payload.slack (webhookMessage new_tickets)
  else
    Payload.generic (webhookMessage new_tickets) new_tickets

/-- `send_webhook_notification` (lines 63-104): with no (or empty)
`WEBHOOK_URL` it logs a warning and returns; otherwise it POSTs the
payload; a `requests.RequestException` is caught and logged inside the
function, any other exception escapes it.  Result: (events, raised?).
Note the function does not consult `DEBUG_MODE`. -/
def send_webhook_notification (cfg : Config) (w : World)
    (new_tickets : List Ticket) : List Event × Bool :=
  match cfg.webhookUrl with
  | none => ([Event.logWarning "WEBHOOK_URL not set, skipping notification"], false)
  | some url =>
    if url = "" then
      ([Event.logWarning "WEBHOOK_URL not set, skipping notification"], false)
    else
      let payload := mkPayload url new_tickets
      match w.webhookFailure with
      | none =>
        ([Event.webhookPost url payload,
          Event.logInfo "Webhook notification sent successfully"], false)
      | some ExcKind.reqExc =>
        ([Event.webhookPost url payload,
          Event.logError "Failed to send webhook notification"], false)
      | some ExcKind.otherExc =>
        ([Event.webhookPost url payload], true)

/-- The wait computed by `wait_exponential(multiplier=1, min=2, max=10)`
after the n-th attempt (1-indexed): `max(min, min(multiplier * 2^n, max))`. -/
def waitTime (n : Nat) : Nat := max 2 (min (2 ^ n) 10)

/-- `fetch_tickets`'s result: a parsed body, a propagated exception, or
tenacity's `RetryError` after the allowed attempts are exhausted. -/
inductive FetchResult
  | ok (r : ApiResponse)
  | exc (k : ExcKind)
  | retryError
  deriving DecidableEq, Repr

/-- One step of the tenacity retry loop around `fetch_tickets`
(lines 107-123): attempt `n` with `rem` attempts still allowed.  A
success returns the body; a non-`RequestException` propagates at once
(`retry_if_exception_type(requests.RequestException)`); a
`RequestException` on the last allowed attempt yields `RetryError`
(`stop_after_attempt(3)`, default `reraise=False`); otherwise the
`before_sleep` warning is logged and the loop sleeps `waitTime n`. -/
def fetchGo (outcomes : Nat → AttemptOutcome) (n : Nat) :
    Nat → List Event × FetchResult
  | 0 => ([], FetchResult.retryError)
  | rem + 1 =>
    match outcomes n with
    | AttemptOutcome.ok r => ([Event.fetchAttempt n], FetchResult.ok r)
    | AttemptOutcome.fail ExcKind.otherExc =>
      ([Event.fetchAttempt n], FetchResult.exc ExcKind.otherExc)
    | AttemptOutcome.fail ExcKind.reqExc =>
      if rem = 0 then ([Event.fetchAttempt n], FetchResult.retryError)
      else
        let next := fetchGo outcomes (n + 1) rem
        (Event.fetchAttempt n ::
          Event.logWarning ("Request failed, retrying... (attempt " ++ toString n ++ "/3)") ::
          Event.retryWait (waitTime n) :: next.1, next.2)

/-- `fetch_tickets` with its decorator: up to 3 attempts. -/
def fetch_tickets (outcomes : Nat → AttemptOutcome) : List Event × FetchResult :=
  fetchGo outcomes 1 3

/-- Python `str.strip()`: drop leading and trailing whitespace. -/
def pyStrip (s : String) : String :=
  ⟨((s.data.dropWhile Char.isWhitespace).reverse.dropWhile Char.isWhitespace).reverse⟩

/-- `str(ticket.get("idx")).strip()` (line 154). -/
def extractId (t : Ticket) : String := pyStrip (pyStr t.idx)

/-- `str(ticket.get("title")).strip()` (line 155). -/
def extractTitle (t : Ticket) : String := pyStrip (pyStr t.title)

/-- One iteration of the new-ticket loop (lines 153-162), threading the
accumulated `new_tickets` list and the emitted log events. -/
def checkStep (known : List String) (p : List Ticket × List Event)
    (t : Ticket) : List Ticket × List Event :=
  if known.contains (extractId t) then
    (p.1, p.2 ++ [Event.logDebug
      ("Skipping known ticket: " ++ extractTitle t ++ " (" ++ extractId t ++ ")")])
  else
    (p.1 ++ [t], p.2 ++ [Event.logInfo
      ("🆕 Found new ticket: " ++ extractTitle t ++ " (" ++ extractId t ++ ")")])

/-- The whole new-ticket loop over `response.get("children", [])`. -/
def checkLoop (known : List String) (tickets : List Ticket) :
    List Ticket × List Event :=
  tickets.foldl (checkStep known) ([], [])

/-- The body of the two identical fetch-failure handlers and of the
`status: false` handler (lines 135-147): log an error, then call
`send_message("FAILED")` outside of any try-block, so an exception from
it escapes `main`. -/
def failureHandler (cfg : Config) (w : World) (errLine : String) :
    List Event × RunResult :=
  let sms := send_message cfg w "FAILED"
  (Event.logError errLine :: sms.1,
   if sms.2 then RunResult.crashed else RunResult.normal)

/-- Lines 149-183 of `main`: the diff over `response.get("children", [])`
and the notify step with its SMS-then-webhook fallback.  Every branch
ends normally: the notification calls here are inside try-blocks. -/
def successPhase (cfg : Config) (w : World) (response : ApiResponse) :
    List Event × RunResult :=
  let tickets := response.children.getD []
  let checked := checkLoop cfg.knownIds tickets
  let new_tickets := checked.1
  let summary : Event := Event.logInfo
    ("Total tickets: " ++ toString tickets.length ++
      ", New tickets: " ++ toString new_tickets.length)
  if new_tickets.isEmpty then
    (checked.2 ++ [summary, Event.logInfo "No new tickets found"],
     RunResult.normal)
  else
    let msg := toString new_tickets.length ++ " 🆕 TICKETS"
    let sms := send_message cfg w msg
    if sms.2 = false then
      (checked.2 ++ [summary] ++ sms.1, RunResult.normal)
    else
      let wh := send_webhook_notification cfg w new_tickets
      if wh.2 = false then
        (checked.2 ++ [summary] ++ sms.1 ++
          (Event.logError "Failed to send message. Trying to send webhook notification..." :: wh.1),
         RunResult.normal)
      else
        (checked.2 ++ [summary] ++ sms.1 ++
          (Event.logError "Failed to send message. Trying to send webhook notification..." :: wh.1) ++
          [Event.logError "Failed to send webhook notification",
           Event.logCritical "Failed to send notification. Please check once."],
         RunResult.normal)

/-- `main` (lines 126-183). -/
def main (cfg : Config) (w : World) : List Event × RunResult :=
  let ev0 : List Event := [Event.logInfo "Checking for new match tickets..."]
  if cfg.stopExecution then
    (ev0 ++ [Event.logInfo "STOP_EXECUTION is enabled. Skipping execution."],
     RunResult.normal)
  else
    let fetched := fetch_tickets w.fetchOutcomes
    match fetched.2 with
    | FetchResult.exc _ =>
      let h := failureHandler cfg w "Failed to fetch tickets after 3 attempts"
      (ev0 ++ fetched.1 ++ h.1, h.2)
    | FetchResult.retryError =>
      let h := failureHandler cfg w "Failed to fetch tickets after 3 attempts"
      (ev0 ++ fetched.1 ++ h.1, h.2)
    | FetchResult.ok response =>
      if response.status = some false then
        let h := failureHandler cfg w
          ("Failed to fetch tickets: " ++ pyStr response.message)
        (ev0 ++ fetched.1 ++ h.1, h.2)
      else
        let s := successPhase cfg w response
        (ev0 ++ fetched.1 ++ s.1, s.2)

/-- Bodies of primary-notification attempts in a trace: the external
Twilio sends plus the debug-mode emissions that replace them. -/
def primaryBodies (evs : List Event) : List String :=
  evs.filterMap fun e =>
    match e with
    | Event.smsSend b => some b
    | Event.smsDebugLog b => some b
    | _ => none

/-- Bodies of the external (non-debug) Twilio sends in a trace. -/
def externalSmsBodies (evs : List Event) : List String :=
  evs.filterMap fun e =>
    match e with
    | Event.smsSend b => some b
    | _ => none

/-- The webhook POSTs in a trace (secondary-notification attempts). -/
def webhookCalls (evs : List Event) : List (String × Payload) :=
  evs.filterMap fun e =>
    match e with
    | Event.webhookPost u p => some (u, p)
    | _ => none

/-- Number of fetch attempts in a trace. -/
def fetchAttemptCount (evs : List Event) : Nat :=
  (evs.filter fun e =>
    match e with
    | Event.fetchAttempt _ => true
    | _ => false).length

/-- The sleeps between fetch attempts, in order. -/
def retryWaits (evs : List Event) : List Nat :=
  evs.filterMap fun e =>
    match e with
    | Event.retryWait d => some d
    | _ => none

/-- The critical-severity log lines in a trace. -/
def criticalLogs (evs : List Event) : List String :=
  evs.filterMap fun e =>
    match e with
    | Event.logCritical s => some s
    | _ => none

/-- The warning-severity log lines in a trace. -/
def warningLogs (evs : List Event) : List String :=
  evs.filterMap fun e =>
    match e with
    | Event.logWarning s => some s
    | _ => none

/-- Control-flow skeleton of a trace: everything except the info logs
and the primary-send events (the only events whose shape legitimately
differs between a dry run and a non-dry run with a successful send). -/
def controlEvents (evs : List Event) : List Event :=
  evs.filter fun e =>
    match e with
    | Event.logInfo _ => false
    | Event.smsSend _ => false
    | Event.smsDebugLog _ => false
    | _ => true

/-- The run took a failure path before the diff: the fetch raised (or
exhausted its retries), or the body carried `status: false`. -/
def fetchFailedOrStatusFalse (w : World) : Bool :=
  match (fetch_tickets w.fetchOutcomes).2 with
  | FetchResult.ok r => r.status = some false
  | _ => true

/-! ### Concrete sample data for witnesses and counterexamples -/

/-- A ticket record `\x7bidx: "1", title: "A"\x7d`. -/
def sampleTicket1 : Ticket := ⟨some "1", some "A", []⟩

/-- A response with one ticket and no `status` field. -/
def respNew : ApiResponse := ⟨none, none, some [sampleTicket1]⟩

/-- A response carrying an explicit `status: false`. -/
def respStatusFalse : ApiResponse := ⟨some false, some "err", none⟩

/-- Configuration: nothing known, live mode, running, no webhook URL. -/
def cfgPlain : Config := ⟨[], false, false, none⟩

/-- Configuration: like `cfgPlain` but with ticket id "1" known. -/
def cfgKnown1 : Config := ⟨["1"], false, false, none⟩

/-- Configuration: like `cfgPlain` but with a generic webhook URL. -/
def cfgWebhook : Config := ⟨[], false, false, some "https://example.com/hook"⟩

/-- Configuration: like `cfgPlain` with the stop flag set. -/
def cfgStop : Config := ⟨[], false, true, none⟩

/-- Configuration: like `cfgPlain` with debug (dry-run) mode on. -/
def cfgDebug : Config := ⟨[], true, false, none⟩

/-- Every fetch attempt raises a `requests.RequestException`. -/
def outcomesAllFail : Nat → AttemptOutcome :=
  fun _ => AttemptOutcome.fail ExcKind.reqExc

/-- Two transient failures, then a success on the third attempt. -/
def outcomesThirdOk : Nat → AttemptOutcome :=
  fun n => if n = 3 then AttemptOutcome.ok respNew
    else AttemptOutcome.fail ExcKind.reqExc

/-- Every fetch attempt raises a non-`RequestException`. -/
def outcomesOtherFail : Nat → AttemptOutcome :=
  fun _ => AttemptOutcome.fail ExcKind.otherExc

/-- World: fetch always fails transiently; SMS would succeed. -/
def wFetchFail : World := ⟨outcomesAllFail, false, none⟩

/-- World: fetch always fails transiently; SMS raises. -/
def wFetchFailSmsFail : World := ⟨outcomesAllFail, true, none⟩

/-- World: fetch returns `respNew`; SMS raises; webhook would deliver. -/
def wNewTicketSmsFail : World := ⟨fun _ => AttemptOutcome.ok respNew, true, none⟩

/-- World: fetch returns `respNew`; SMS raises; the webhook POST raises
a `requests.RequestException` (delivery failure). -/
def wNewTicketBothFail : World :=
  ⟨fun _ => AttemptOutcome.ok respNew, true, some ExcKind.reqExc⟩

/-- World: fetch returns `respNew`; SMS and webhook both succeed. -/
def wNewTicket : World := ⟨fun _ => AttemptOutcome.ok respNew, false, none⟩

/-- World: fetch returns `status: false`; SMS would succeed. -/
def wStatusFalse : World := ⟨fun _ => AttemptOutcome.ok respStatusFalse, false, none⟩

/-! ### Basic lemmas about the embedded operations -/

lemma checkLoop_go_fst (K : List String) :
    ∀ (ts : List Ticket) (acc : List Ticket) (evs : List Event),
      (ts.foldl (checkStep K) (acc, evs)).1 =
        acc ++ ts.filter (fun t => !K.contains (extractId t)) := by
  intro ts
  induction ts with
  | nil => intro acc evs; simp
  | cons t ts ih =>
    intro acc evs
    by_cases h : extractId t ∈ K <;>
      simp [checkStep, h, ih, List.filter_cons]

lemma checkLoop_fst (K : List String) (T : List Ticket) :
    (checkLoop K T).1 = T.filter (fun t => !K.contains (extractId t)) := by
  simpa using checkLoop_go_fst K T [] []

lemma checkLoop_go_events (K : List String) :
    ∀ (ts : List Ticket) (acc : List Ticket) (evs : List Event)
      (e : Event), e ∈ (ts.foldl (checkStep K) (acc, evs)).2 →
      e ∈ evs ∨ (∃ s, e = Event.logDebug s) ∨ (∃ s, e = Event.logInfo s) := by
  intro ts
  induction ts with
  | nil => intro acc evs e he; exact Or.inl (by simpa using he)
  | cons t ts ih =>
    intro acc evs e he
    rw [List.foldl_cons] at he
    by_cases h : extractId t ∈ K
    · have hstep : checkStep K (acc, evs) t =
        (acc, evs ++ [Event.logDebug
          ("Skipping known ticket: " ++ extractTitle t ++ " (" ++ extractId t ++ ")")]) := by
        simp [checkStep, h]
      rw [hstep] at he
      rcases ih _ _ _ he with hmem | hrest
      · rcases List.mem_append.1 hmem with h1 | h2
        · exact Or.inl h1
        · exact Or.inr (Or.inl ⟨_, by simpa using h2⟩)
      · exact Or.inr hrest
    · have hstep : checkStep K (acc, evs) t =
        (acc ++ [t], evs ++ [Event.logInfo
          ("🆕 Found new ticket: " ++ extractTitle t ++ " (" ++ extractId t ++ ")")]) := by
        simp [checkStep, h]
      rw [hstep] at he
      rcases ih _ _ _ he with hmem | hrest
      · rcases List.mem_append.1 hmem with h1 | h2
        · exact Or.inl h1
        · exact Or.inr (Or.inr ⟨_, by simpa using h2⟩)
      · exact Or.inr hrest

lemma checkLoop_events (K : List String) (T : List Ticket) (e : Event) :
    e ∈ (checkLoop K T).2 →
    (∃ s, e = Event.logDebug s) ∨ (∃ s, e = Event.logInfo s) := by
  intro he
  rcases checkLoop_go_events K T [] [] e he with h | h
  · simp at h
  · exact h

lemma fetchGo_events (outcomes : Nat → AttemptOutcome) :
    ∀ (rem n : Nat) (e : Event), e ∈ (fetchGo outcomes n rem).1 →
      (∃ k, e = Event.fetchAttempt k) ∨ (∃ s, e = Event.logWarning s) ∨
        (∃ d, e = Event.retryWait d) := by
  intro rem
  induction rem with
  | zero => intro n e he; simp [fetchGo] at he
  | succ rem ih =>
    intro n e he
    rcases ho : outcomes n with r | k
    · rw [fetchGo, ho] at he
      simp at he
      exact Or.inl ⟨_, he⟩
    · cases k with
      | otherExc =>
        rw [fetchGo, ho] at he
        simp at he
        exact Or.inl ⟨_, he⟩
      | reqExc =>
        rw [fetchGo, ho] at he
        by_cases hr : rem = 0
        · simp [hr] at he
          exact Or.inl ⟨_, he⟩
        · simp [hr] at he
          rcases he with rfl | rfl | rfl | he
          · exact Or.inl ⟨_, rfl⟩
          · exact Or.inr (Or.inl ⟨_, rfl⟩)
          · exact Or.inr (Or.inr ⟨_, rfl⟩)
          · exact ih _ _ he

/-- The events emitted by a call to `send_message`. -/
lemma send_message_events (cfg : Config) (w : World) (m : String) :
    primaryBodies (send_message cfg w m).1 = [m] ∧
    webhookCalls (send_message cfg w m).1 = [] ∧
    criticalLogs (send_message cfg w m).1 = [] ∧
    controlEvents (send_message cfg w m).1 = [] := by
  by_cases hd : cfg.debugMode <;> by_cases hs : w.smsFails <;>
    simp [send_message, hd, hs, primaryBodies, webhookCalls, criticalLogs,
      controlEvents]

lemma send_message_debug (cfg : Config) (w : World) (m : String)
    (hd : cfg.debugMode = true) :
    send_message cfg w m =
      ([Event.logInfo "Debug mode is enabled. Skipping sending message and printing to console.",
        Event.smsDebugLog m], false) := by
  simp [send_message, hd]

lemma send_message_raised (cfg : Config) (w : World) (m : String) :
    (send_message cfg w m).2 = (!cfg.debugMode && w.smsFails) := by
  by_cases hd : cfg.debugMode <;> by_cases hs : w.smsFails <;>
    simp [send_message, hd, hs]

lemma fetchGo_primaryBodies (outcomes : Nat → AttemptOutcome) (n rem : Nat) :
    primaryBodies (fetchGo outcomes n rem).1 = [] := by
  rw [primaryBodies, List.filterMap_eq_nil_iff]
  intro e he
  rcases fetchGo_events outcomes rem n e he with ⟨k, rfl⟩ | ⟨s, rfl⟩ | ⟨d, rfl⟩ <;> rfl

lemma fetchGo_webhookCalls (outcomes : Nat → AttemptOutcome) (n rem : Nat) :
    webhookCalls (fetchGo outcomes n rem).1 = [] := by
  rw [webhookCalls, List.filterMap_eq_nil_iff]
  intro e he
  rcases fetchGo_events outcomes rem n e he with ⟨k, rfl⟩ | ⟨s, rfl⟩ | ⟨d, rfl⟩ <;> rfl

lemma fetchGo_criticalLogs (outcomes : Nat → AttemptOutcome) (n rem : Nat) :
    criticalLogs (fetchGo outcomes n rem).1 = [] := by
  rw [criticalLogs, List.filterMap_eq_nil_iff]
  intro e he
  rcases fetchGo_events outcomes rem n e he with ⟨k, rfl⟩ | ⟨s, rfl⟩ | ⟨d, rfl⟩ <;> rfl

lemma checkLoop_primaryBodies (K : List String) (T : List Ticket) :
    primaryBodies (checkLoop K T).2 = [] := by
  rw [primaryBodies, List.filterMap_eq_nil_iff]
  intro e he
  rcases checkLoop_events K T e he with ⟨s, rfl⟩ | ⟨s, rfl⟩ <;> rfl

lemma checkLoop_webhookCalls (K : List String) (T : List Ticket) :
    webhookCalls (checkLoop K T).2 = [] := by
  rw [webhookCalls, List.filterMap_eq_nil_iff]
  intro e he
  rcases checkLoop_events K T e he with ⟨s, rfl⟩ | ⟨s, rfl⟩ <;> rfl

lemma checkLoop_criticalLogs (K : List String) (T : List Ticket) :
    criticalLogs (checkLoop K T).2 = [] := by
  rw [criticalLogs, List.filterMap_eq_nil_iff]
  intro e he
  rcases checkLoop_events K T e he with ⟨s, rfl⟩ | ⟨s, rfl⟩ <;> rfl

/-- With a missing or empty `WEBHOOK_URL` the webhook helper only warns. -/
lemma send_webhook_unset (cfg : Config) (w : World) (ts : List Ticket)
    (h : cfg.webhookUrl = none ∨ cfg.webhookUrl = some "") :
    send_webhook_notification cfg w ts =
      ([Event.logWarning "WEBHOOK_URL not set, skipping notification"], false) := by
  rcases h with h | h <;> simp [send_webhook_notification, h]

/-- With a configured URL the webhook helper posts exactly once; only a
non-`RequestException` escapes it. -/
lemma send_webhook_set (cfg : Config) (w : World) (ts : List Ticket)
    (url : String) (hu : cfg.webhookUrl = some url) (hne : url ≠ "") :
    webhookCalls (send_webhook_notification cfg w ts).1 = [(url, mkPayload url ts)] ∧
    (send_webhook_notification cfg w ts).2 =
      (w.webhookFailure = some ExcKind.otherExc : Bool) ∧
    primaryBodies (send_webhook_notification cfg w ts).1 = [] := by
  rcases hw : w.webhookFailure with _ | k
  · simp [send_webhook_notification, hu, hne, hw, webhookCalls, primaryBodies]
  · cases k <;>
      simp [send_webhook_notification, hu, hne, hw, webhookCalls, primaryBodies]

/-- C1: for every known-ID set `K` and fetched ticket list `T`, the
new-ticket loop returns exactly the sublist of `T` whose extracted id
(the `idx` field, stringified and trimmed) is not in `K`, in input
order and with the records unchanged, and the result is empty iff every
extracted id is in `K`. -/
theorem C1_diff_is_filter (K : List String) (T : List Ticket) :
    (checkLoop K T).1 = T.filter (fun t => !K.contains (extractId t)) ∧
    List.Sublist (checkLoop K T).1 T ∧
    ((checkLoop K T).1 = [] ↔ ∀ t ∈ T, extractId t ∈ K) := by
  refine ⟨checkLoop_fst K T, ?_, ?_⟩
  · rw [checkLoop_fst K T]
    exact List.filter_sublist T
  · rw [checkLoop_fst K T, List.filter_eq_nil_iff]
    simp

lemma successPhase_normal (cfg : Config) (w : World) (r : ApiResponse) :
    (successPhase cfg w r).2 = RunResult.normal := by
  simp only [successPhase]
  split
  · rfl
  · split
    · rfl
    · split <;> rfl

lemma main_stop (cfg : Config) (w : World) (h : cfg.stopExecution = true) :
    main cfg w = ([Event.logInfo "Checking for new match tickets...",
      Event.logInfo "STOP_EXECUTION is enabled. Skipping execution."],
      RunResult.normal) := by
  simp [main, h]

lemma main_fetchExc (cfg : Config) (w : World) (k : ExcKind)
    (hstop : cfg.stopExecution = false)
    (hf : (fetch_tickets w.fetchOutcomes).2 = FetchResult.exc k) :
    main cfg w = (Event.logInfo "Checking for new match tickets..." ::
      ((fetch_tickets w.fetchOutcomes).1 ++
        (failureHandler cfg w "Failed to fetch tickets after 3 attempts").1),
      (failureHandler cfg w "Failed to fetch tickets after 3 attempts").2) := by
  simp [main, hstop, hf]

lemma main_retryError (cfg : Config) (w : World)
    (hstop : cfg.stopExecution = false)
    (hf : (fetch_tickets w.fetchOutcomes).2 = FetchResult.retryError) :
    main cfg w = (Event.logInfo "Checking for new match tickets..." ::
      ((fetch_tickets w.fetchOutcomes).1 ++
        (failureHandler cfg w "Failed to fetch tickets after 3 attempts").1),
      (failureHandler cfg w "Failed to fetch tickets after 3 attempts").2) := by
  simp [main, hstop, hf]

lemma main_statusFalse (cfg : Config) (w : World) (r : ApiResponse)
    (hstop : cfg.stopExecution = false)
    (hf : (fetch_tickets w.fetchOutcomes).2 = FetchResult.ok r)
    (hs : r.status = some false) :
    main cfg w = (Event.logInfo "Checking for new match tickets..." ::
      ((fetch_tickets w.fetchOutcomes).1 ++
        (failureHandler cfg w ("Failed to fetch tickets: " ++ pyStr r.message)).1),
      (failureHandler cfg w ("Failed to fetch tickets: " ++ pyStr r.message)).2) := by
  simp [main, hstop, hf, hs]

lemma main_ok (cfg : Config) (w : World) (r : ApiResponse)
    (hstop : cfg.stopExecution = false)
    (hf : (fetch_tickets w.fetchOutcomes).2 = FetchResult.ok r)
    (hs : ¬ r.status = some false) :
    main cfg w = (Event.logInfo "Checking for new match tickets..." ::
      ((fetch_tickets w.fetchOutcomes).1 ++ (successPhase cfg w r).1),
      (successPhase cfg w r).2) := by
  simp [main, hstop, hf, hs]

lemma primaryBodies_append (a b : List Event) :
    primaryBodies (a ++ b) = primaryBodies a ++ primaryBodies b :=
  List.filterMap_append a b _

lemma externalSmsBodies_append (a b : List Event) :
    externalSmsBodies (a ++ b) = externalSmsBodies a ++ externalSmsBodies b :=
  List.filterMap_append a b _

lemma webhookCalls_append (a b : List Event) :
    webhookCalls (a ++ b) = webhookCalls a ++ webhookCalls b :=
  List.filterMap_append a b _

lemma criticalLogs_append (a b : List Event) :
    criticalLogs (a ++ b) = criticalLogs a ++ criticalLogs b :=
  List.filterMap_append a b _

lemma controlEvents_append (a b : List Event) :
    controlEvents (a ++ b) = controlEvents a ++ controlEvents b :=
  List.filter_append a b

lemma externalSmsBodies_nil (evs : List Event)
    (h : primaryBodies evs = []) : externalSmsBodies evs = [] := by
  rw [primaryBodies, List.filterMap_eq_nil_iff] at h
  rw [externalSmsBodies, List.filterMap_eq_nil_iff]
  intro e he
  have he2 := h e he
  cases e <;> simp_all

lemma fetch_primaryBodies (outcomes : Nat → AttemptOutcome) :
    primaryBodies (fetch_tickets outcomes).1 = [] :=
  fetchGo_primaryBodies outcomes 1 3

lemma fetch_webhookCalls (outcomes : Nat → AttemptOutcome) :
    webhookCalls (fetch_tickets outcomes).1 = [] :=
  fetchGo_webhookCalls outcomes 1 3

lemma fetch_criticalLogs (outcomes : Nat → AttemptOutcome) :
    criticalLogs (fetch_tickets outcomes).1 = [] :=
  fetchGo_criticalLogs outcomes 1 3

lemma failureHandler_events (cfg : Config) (w : World) (s : String) :
    primaryBodies (failureHandler cfg w s).1 = ["FAILED"] ∧
    webhookCalls (failureHandler cfg w s).1 = [] ∧
    criticalLogs (failureHandler cfg w s).1 = [] := by
  by_cases hd : cfg.debugMode <;> by_cases hs : w.smsFails <;>
    simp [failureHandler, send_message, hd, hs, primaryBodies, webhookCalls,
      criticalLogs]

lemma failureHandler_result (cfg : Config) (w : World) (s : String) :
    (failureHandler cfg w s).2 =
      (if !cfg.debugMode && w.smsFails then RunResult.crashed
        else RunResult.normal) := by
  rw [failureHandler]
  simp [send_message_raised]

lemma send_webhook_primaryBodies (cfg : Config) (w : World) (ts : List Ticket) :
    primaryBodies (send_webhook_notification cfg w ts).1 = [] := by
  rcases hu : cfg.webhookUrl with _ | url
  · simp [send_webhook_notification, hu, primaryBodies]
  · by_cases he : url = ""
    · simp [send_webhook_notification, hu, he, primaryBodies]
    · rcases hw : w.webhookFailure with _ | k
      · simp [send_webhook_notification, hu, he, hw, primaryBodies]
      · cases k <;>
          simp [send_webhook_notification, hu, he, hw, primaryBodies]

lemma send_webhook_criticalLogs (cfg : Config) (w : World) (ts : List Ticket) :
    criticalLogs (send_webhook_notification cfg w ts).1 = [] := by
  rcases hu : cfg.webhookUrl with _ | url
  · simp [send_webhook_notification, hu, criticalLogs]
  · by_cases he : url = ""
    · simp [send_webhook_notification, hu, he, criticalLogs]
    · rcases hw : w.webhookFailure with _ | k
      · simp [send_webhook_notification, hu, he, hw, criticalLogs]
      · cases k <;>
          simp [send_webhook_notification, hu, he, hw, criticalLogs]

/-! ### The claims -/

/-- C8: with the stop flag set, `main` returns immediately after two
info logs: no fetch attempt, no diff logs, no notification of any kind. -/
theorem C8_stop_flag (cfg : Config) (w : World)
    (h : cfg.stopExecution = true) :
    main cfg w = ([Event.logInfo "Checking for new match tickets...",
      Event.logInfo "STOP_EXECUTION is enabled. Skipping execution."],
      RunResult.normal) ∧
    fetchAttemptCount (main cfg w).1 = 0 ∧
    primaryBodies (main cfg w).1 = [] ∧
    webhookCalls (main cfg w).1 = [] := by
  have hm := main_stop cfg w h
  refine ⟨hm, ?_, ?_, ?_⟩ <;> rw [hm] <;> rfl

/-- Witness for C8 at a concrete stopped configuration. -/
theorem C8_stop_flag_witness :
    main cfgStop wFetchFail = ([Event.logInfo "Checking for new match tickets...",
      Event.logInfo "STOP_EXECUTION is enabled. Skipping execution."],
      RunResult.normal) ∧
    fetchAttemptCount (main cfgStop wFetchFail).1 = 0 ∧
    primaryBodies (main cfgStop wFetchFail).1 = [] ∧
    webhookCalls (main cfgStop wFetchFail).1 = [] :=
  C8_stop_flag cfgStop wFetchFail rfl

/-- C2 as stated is false: on retry exhaustion the single SMS body is
`"FAILED"`, not `"FETCH FAILED"`, and (with the SMS call raising) the
operation does not return but crashes. -/
theorem C2_counterexample :
    primaryBodies (main cfgPlain wFetchFailSmsFail).1 = ["FAILED"] ∧
    primaryBodies (main cfgPlain wFetchFailSmsFail).1 ≠ ["FETCH FAILED"] ∧
    (main cfgPlain wFetchFailSmsFail).2 = RunResult.crashed := by
  refine ⟨by rfl, by decide, by rfl⟩

/-- C2 (amended): when the fetch fails transiently on all 3 attempts,
exactly one primary notification attempt is made, its body is the fixed
string `"FAILED"`, no secondary attempt is made, and the run returns
normally iff dry-run is set or the SMS call does not raise (the
`"FAILED"` send sits outside every try-block). -/
theorem C2_retry_exhaustion (cfg : Config) (w : World)
    (hstop : cfg.stopExecution = false)
    (h1 : w.fetchOutcomes 1 = AttemptOutcome.fail ExcKind.reqExc)
    (h2 : w.fetchOutcomes 2 = AttemptOutcome.fail ExcKind.reqExc)
    (h3 : w.fetchOutcomes 3 = AttemptOutcome.fail ExcKind.reqExc) :
    primaryBodies (main cfg w).1 = ["FAILED"] ∧
    webhookCalls (main cfg w).1 = [] ∧
    ((main cfg w).2 = RunResult.normal ↔
      (cfg.debugMode = true ∨ w.smsFails = false)) := by
  have hres : (fetch_tickets w.fetchOutcomes).2 = FetchResult.retryError := by
    simp [fetch_tickets, fetchGo, h1, h2, h3]
  have hh := failureHandler_events cfg w "Failed to fetch tickets after 3 attempts"
  rw [main_retryError cfg w hstop hres]
  refine ⟨?_, ?_, ?_⟩
  · rw [← List.singleton_append, primaryBodies_append, primaryBodies_append,
      fetch_primaryBodies, hh.1]
    simp [primaryBodies]
  · rw [← List.singleton_append, webhookCalls_append, webhookCalls_append,
      fetch_webhookCalls, hh.2.1]
    simp [webhookCalls]
  · rw [failureHandler_result]
    cases hd : cfg.debugMode <;> cases hsm : w.smsFails <;> simp

/-- Witness for (amended) C2 at a concrete always-failing fetch. -/
theorem C2_retry_exhaustion_witness :
    primaryBodies (main cfgPlain wFetchFail).1 = ["FAILED"] ∧
    webhookCalls (main cfgPlain wFetchFail).1 = [] ∧
    ((main cfgPlain wFetchFail).2 = RunResult.normal ↔
      (cfgPlain.debugMode = true ∨ wFetchFail.smsFails = false)) :=
  C2_retry_exhaustion cfgPlain wFetchFail rfl rfl rfl rfl

/-- C4 as stated is false: when the fetch exhausts its retries and the
fallback `"FAILED"` SMS itself raises, the exception escapes `main`. -/
theorem C4_counterexample :
    (main cfgPlain wFetchFailSmsFail).2 = RunResult.crashed := by rfl

/-- C4 (amended): an exception escapes `main` exactly when a failure
path (fetch exception, retry exhaustion, or `status: false`) is taken
and the unwrapped `"FAILED"` SMS call itself raises outside dry-run; in
every other situation — including every combination of notification
failures on the new-ticket path — the invocation exits cleanly. -/
theorem C4_crash_characterization (cfg : Config) (w : World) :
    (main cfg w).2 = RunResult.crashed ↔
      (cfg.stopExecution = false ∧ cfg.debugMode = false ∧
        w.smsFails = true ∧ fetchFailedOrStatusFalse w = true) := by
  cases hstop : cfg.stopExecution with
  | true => rw [main_stop cfg w hstop]; simp [hstop]
  | false =>
    cases hf : (fetch_tickets w.fetchOutcomes).2 with
    | ok r =>
      by_cases hs : r.status = some false
      · rw [main_statusFalse cfg w r hstop hf hs, failureHandler_result]
        cases hd : cfg.debugMode <;> cases hsm : w.smsFails <;>
          simp [fetchFailedOrStatusFalse, hf, hs, hd, hsm]
      · rw [main_ok cfg w r hstop hf hs]
        simp [successPhase_normal, fetchFailedOrStatusFalse, hf, hs]
    | exc k =>
      rw [main_fetchExc cfg w k hstop hf, failureHandler_result]
      cases hd : cfg.debugMode <;> cases hsm : w.smsFails <;>
        simp [fetchFailedOrStatusFalse, hf, hd, hsm]
    | retryError =>
      rw [main_retryError cfg w hstop hf, failureHandler_result]
      cases hd : cfg.debugMode <;> cases hsm : w.smsFails <;>
        simp [fetchFailedOrStatusFalse, hf, hd, hsm]

/-- C6: a body with explicit `status: false` is routed to the same
handling as a fetch failure — one `"FAILED"` primary attempt, no
secondary attempt, same final result as a world whose fetch always
fails — and an absent `status` behaves like `status: true`. -/
theorem C6_status_false (cfg : Config) (w : World) (r : ApiResponse)
    (hstop : cfg.stopExecution = false)
    (hf : (fetch_tickets w.fetchOutcomes).2 = FetchResult.ok r)
    (hs : r.status = some false) :
    primaryBodies (main cfg w).1 = ["FAILED"] ∧
    webhookCalls (main cfg w).1 = [] ∧
    (main cfg w).2 = (main cfg {w with fetchOutcomes := outcomesAllFail}).2 ∧
    primaryBodies (main cfg {w with fetchOutcomes := outcomesAllFail}).1 = ["FAILED"] ∧
    webhookCalls (main cfg {w with fetchOutcomes := outcomesAllFail}).1 = [] ∧
    (∀ r' : ApiResponse, r'.status = none →
      main cfg {w with fetchOutcomes := (fun _ => AttemptOutcome.ok r')} =
        main cfg {w with fetchOutcomes :=
          (fun _ => AttemptOutcome.ok {r' with status := some true})}) := by
  have hres' : (fetch_tickets ({w with fetchOutcomes := outcomesAllFail}).fetchOutcomes).2 =
      FetchResult.retryError := by
    simp [fetch_tickets, fetchGo, outcomesAllFail]
  have hh := failureHandler_events cfg w ("Failed to fetch tickets: " ++ pyStr r.message)
  have hh' := failureHandler_events cfg {w with fetchOutcomes := outcomesAllFail}
    "Failed to fetch tickets after 3 attempts"
  rw [main_statusFalse cfg w r hstop hf hs,
    main_retryError cfg {w with fetchOutcomes := outcomesAllFail} hstop hres']
  refine ⟨?_, ?_, ?_, ?_, ?_, ?_⟩
  · rw [← List.singleton_append, primaryBodies_append, primaryBodies_append,
      fetch_primaryBodies, hh.1]
    simp [primaryBodies]
  · rw [← List.singleton_append, webhookCalls_append, webhookCalls_append,
      fetch_webhookCalls, hh.2.1]
    simp [webhookCalls]
  · rw [failureHandler_result, failureHandler_result]
  · rw [← List.singleton_append, primaryBodies_append, primaryBodies_append,
      fetch_primaryBodies, hh'.1]
    simp [primaryBodies]
  · rw [← List.singleton_append, webhookCalls_append, webhookCalls_append,
      fetch_webhookCalls, hh'.2.1]
    simp [webhookCalls]
  · intro r' hr'
    have hfa : (fetch_tickets ({w with fetchOutcomes :=
        (fun _ => AttemptOutcome.ok r')}).fetchOutcomes).2 = FetchResult.ok r' := by
      simp [fetch_tickets, fetchGo]
    have hfb : (fetch_tickets ({w with fetchOutcomes :=
        (fun _ => AttemptOutcome.ok {r' with status := some true})}).fetchOutcomes).2 =
        FetchResult.ok {r' with status := some true} := by
      simp [fetch_tickets, fetchGo]
    rw [main_ok cfg _ r' hstop hfa (by rw [hr']; simp),
      main_ok cfg _ {r' with status := some true} hstop hfb (by simp)]
    rfl

/-- Witness for C6 at a concrete `status: false` response. -/
theorem C6_status_false_witness :
    primaryBodies (main cfgPlain wStatusFalse).1 = ["FAILED"] ∧
    webhookCalls (main cfgPlain wStatusFalse).1 = [] ∧
    (main cfgPlain wStatusFalse).2 =
      (main cfgPlain {wStatusFalse with fetchOutcomes := outcomesAllFail}).2 ∧
    primaryBodies (main cfgPlain {wStatusFalse with fetchOutcomes := outcomesAllFail}).1 = ["FAILED"] ∧
    webhookCalls (main cfgPlain {wStatusFalse with fetchOutcomes := outcomesAllFail}).1 = [] ∧
    (∀ r' : ApiResponse, r'.status = none →
      main cfgPlain {wStatusFalse with fetchOutcomes := (fun _ => AttemptOutcome.ok r')} =
        main cfgPlain {wStatusFalse with fetchOutcomes :=
          (fun _ => AttemptOutcome.ok {r' with status := some true})}) :=
  C6_status_false cfgPlain wStatusFalse respStatusFalse rfl rfl rfl

lemma primaryBodies_nil : primaryBodies [] = [] := rfl

lemma primaryBodies_cons_logInfo (s : String) (l : List Event) :
    primaryBodies (Event.logInfo s :: l) = primaryBodies l := rfl

lemma primaryBodies_cons_logError (s : String) (l : List Event) :
    primaryBodies (Event.logError s :: l) = primaryBodies l := rfl

lemma primaryBodies_cons_logWarning (s : String) (l : List Event) :
    primaryBodies (Event.logWarning s :: l) = primaryBodies l := rfl

lemma primaryBodies_cons_logCritical (s : String) (l : List Event) :
    primaryBodies (Event.logCritical s :: l) = primaryBodies l := rfl

lemma primaryBodies_cons_webhookPost (u : String) (p : Payload) (l : List Event) :
    primaryBodies (Event.webhookPost u p :: l) = primaryBodies l := rfl

lemma webhookCalls_nil : webhookCalls [] = [] := rfl

lemma webhookCalls_cons_logInfo (s : String) (l : List Event) :
    webhookCalls (Event.logInfo s :: l) = webhookCalls l := rfl

lemma webhookCalls_cons_logError (s : String) (l : List Event) :
    webhookCalls (Event.logError s :: l) = webhookCalls l := rfl

lemma webhookCalls_cons_logWarning (s : String) (l : List Event) :
    webhookCalls (Event.logWarning s :: l) = webhookCalls l := rfl

lemma webhookCalls_cons_logCritical (s : String) (l : List Event) :
    webhookCalls (Event.logCritical s :: l) = webhookCalls l := rfl

lemma webhookCalls_cons_smsSend (s : String) (l : List Event) :
    webhookCalls (Event.smsSend s :: l) = webhookCalls l := rfl

lemma webhookCalls_cons_smsDebugLog (s : String) (l : List Event) :
    webhookCalls (Event.smsDebugLog s :: l) = webhookCalls l := rfl

lemma criticalLogs_nil : criticalLogs [] = [] := rfl

lemma criticalLogs_cons_logInfo (s : String) (l : List Event) :
    criticalLogs (Event.logInfo s :: l) = criticalLogs l := rfl

lemma criticalLogs_cons_logError (s : String) (l : List Event) :
    criticalLogs (Event.logError s :: l) = criticalLogs l := rfl

lemma criticalLogs_cons_logWarning (s : String) (l : List Event) :
    criticalLogs (Event.logWarning s :: l) = criticalLogs l := rfl

lemma criticalLogs_cons_logCritical (s : String) (l : List Event) :
    criticalLogs (Event.logCritical s :: l) = s :: criticalLogs l := rfl

lemma externalSmsBodies_nil_lit : externalSmsBodies [] = [] := rfl

lemma externalSmsBodies_cons_logInfo (s : String) (l : List Event) :
    externalSmsBodies (Event.logInfo s :: l) = externalSmsBodies l := rfl

lemma externalSmsBodies_cons_logError (s : String) (l : List Event) :
    externalSmsBodies (Event.logError s :: l) = externalSmsBodies l := rfl

lemma externalSmsBodies_cons_smsDebugLog (s : String) (l : List Event) :
    externalSmsBodies (Event.smsDebugLog s :: l) = externalSmsBodies l := rfl

lemma controlEvents_nil : controlEvents [] = [] := rfl

lemma controlEvents_cons_logInfo (s : String) (l : List Event) :
    controlEvents (Event.logInfo s :: l) = controlEvents l := rfl

lemma controlEvents_cons_smsSend (s : String) (l : List Event) :
    controlEvents (Event.smsSend s :: l) = controlEvents l := rfl

lemma controlEvents_cons_smsDebugLog (s : String) (l : List Event) :
    controlEvents (Event.smsDebugLog s :: l) = controlEvents l := rfl

lemma controlEvents_cons_logError (s : String) (l : List Event) :
    controlEvents (Event.logError s :: l) =
      Event.logError s :: controlEvents l := rfl

lemma successPhase_of_empty (cfg : Config) (w : World) (r : ApiResponse)
    (hempty : (checkLoop cfg.knownIds (r.children.getD [])).1 = []) :
    successPhase cfg w r =
      ((checkLoop cfg.knownIds (r.children.getD [])).2 ++
        [Event.logInfo ("Total tickets: " ++ toString (r.children.getD []).length ++
          ", New tickets: " ++
            toString (checkLoop cfg.knownIds (r.children.getD [])).1.length),
         Event.logInfo "No new tickets found"], RunResult.normal) := by
  simp only [successPhase]
  split
  · rfl
  · next h => exact absurd (by rw [hempty]; rfl) h

/-- C7: a fetch failing transiently exactly twice and succeeding on the
third attempt returns the success body with exactly 3 attempts and
backoff sleeps 2 then 4; the backoff schedule starts at 2, doubles, and
is capped at 10; a non-retryable (non-`RequestException`) failure
propagates immediately after a single attempt with no sleep. -/
theorem C7_retry_bound :
    (∀ (outcomes : Nat → AttemptOutcome) (r : ApiResponse),
      outcomes 1 = AttemptOutcome.fail ExcKind.reqExc →
      outcomes 2 = AttemptOutcome.fail ExcKind.reqExc →
      outcomes 3 = AttemptOutcome.ok r →
      (fetch_tickets outcomes).2 = FetchResult.ok r ∧
      fetchAttemptCount (fetch_tickets outcomes).1 = 3 ∧
      retryWaits (fetch_tickets outcomes).1 = [2, 4]) ∧
    waitTime 1 = 2 ∧
    (∀ n, 1 ≤ n → waitTime (n + 1) = min (2 * waitTime n) 10) ∧
    (∀ n, waitTime n ≤ 10) ∧
    (∀ outcomes : Nat → AttemptOutcome,
      outcomes 1 = AttemptOutcome.fail ExcKind.otherExc →
      (fetch_tickets outcomes).2 = FetchResult.exc ExcKind.otherExc ∧
      fetchAttemptCount (fetch_tickets outcomes).1 = 1 ∧
      retryWaits (fetch_tickets outcomes).1 = []) := by
  refine ⟨?_, by decide, ?_, ?_, ?_⟩
  · intro outcomes r h1 h2 h3
    refine ⟨?_, ?_, ?_⟩ <;>
      simp [fetch_tickets, fetchGo, h1, h2, h3, fetchAttemptCount, retryWaits,
        waitTime]
  · intro n hn
    have h2n : (2 : ℕ) ≤ 2 ^ n := by
      calc (2 : ℕ) = 2 ^ 1 := (pow_one 2).symm
        _ ≤ 2 ^ n := Nat.pow_le_pow_right (by norm_num) hn
    have hp : (2 : ℕ) ^ (n + 1) = 2 * 2 ^ n := by rw [pow_succ]; ring
    simp only [waitTime]
    omega
  · intro n
    simp only [waitTime]
    omega
  · intro outcomes h1
    refine ⟨?_, ?_, ?_⟩ <;>
      simp [fetch_tickets, fetchGo, h1, fetchAttemptCount, retryWaits]

/-- Witness for C7 at concrete attempt-outcome schedules. -/
theorem C7_retry_bound_witness :
    ((fetch_tickets outcomesThirdOk).2 = FetchResult.ok respNew ∧
      fetchAttemptCount (fetch_tickets outcomesThirdOk).1 = 3 ∧
      retryWaits (fetch_tickets outcomesThirdOk).1 = [2, 4]) ∧
    ((fetch_tickets outcomesOtherFail).2 = FetchResult.exc ExcKind.otherExc ∧
      fetchAttemptCount (fetch_tickets outcomesOtherFail).1 = 1 ∧
      retryWaits (fetch_tickets outcomesOtherFail).1 = []) ∧
    waitTime (1 + 1) = min (2 * waitTime 1) 10 ∧
    waitTime 4 ≤ 10 :=
  ⟨C7_retry_bound.1 outcomesThirdOk respNew rfl rfl rfl,
   C7_retry_bound.2.2.2.2 outcomesOtherFail rfl,
   C7_retry_bound.2.2.1 1 (by decide),
   C7_retry_bound.2.2.2.1 4⟩

/-- C9: a successful fetch whose diff is empty (every id already known)
sends nothing on either channel and ends normally. -/
theorem C9_no_new_tickets (cfg : Config) (w : World) (r : ApiResponse)
    (hstop : cfg.stopExecution = false)
    (hf : (fetch_tickets w.fetchOutcomes).2 = FetchResult.ok r)
    (hs : ¬ r.status = some false)
    (hall : ∀ t ∈ r.children.getD [], extractId t ∈ cfg.knownIds) :
    primaryBodies (main cfg w).1 = [] ∧
    webhookCalls (main cfg w).1 = [] ∧
    (main cfg w).2 = RunResult.normal := by
  have hempty : (checkLoop cfg.knownIds (r.children.getD [])).1 = [] := by
    rw [checkLoop_fst, List.filter_eq_nil_iff]
    intro t ht
    simpa using hall t ht
  have hsp := successPhase_of_empty cfg w r hempty
  rw [main_ok cfg w r hstop hf hs, hsp]
  refine ⟨?_, ?_, rfl⟩
  · rw [← List.singleton_append, primaryBodies_append, primaryBodies_append,
      fetch_primaryBodies, primaryBodies_append, checkLoop_primaryBodies]
    simp [primaryBodies]
  · rw [← List.singleton_append, webhookCalls_append, webhookCalls_append,
      fetch_webhookCalls, webhookCalls_append, checkLoop_webhookCalls]
    simp [webhookCalls]

/-- Witness for C9 at `T = [\x7bidx:"1",title:"A"\x7d]`, `K = \x7b"1"\x7d`. -/
theorem C9_no_new_tickets_witness :
    primaryBodies (main cfgKnown1 wNewTicket).1 = [] ∧
    webhookCalls (main cfgKnown1 wNewTicket).1 = [] ∧
    (main cfgKnown1 wNewTicket).2 = RunResult.normal :=
  C9_no_new_tickets cfgKnown1 wNewTicket respNew rfl rfl (by decide) (by decide)

lemma successPhase_of_smsFail (cfg : Config) (w : World) (r : ApiResponse)
    (hne : ¬ (checkLoop cfg.knownIds (r.children.getD [])).1.isEmpty = true)
    (hsm : (send_message cfg w
      (toString (checkLoop cfg.knownIds (r.children.getD [])).1.length ++
        " 🆕 TICKETS")).2 = true) :
    successPhase cfg w r =
      ((checkLoop cfg.knownIds (r.children.getD [])).2 ++
        [Event.logInfo ("Total tickets: " ++ toString (r.children.getD []).length ++
          ", New tickets: " ++
            toString (checkLoop cfg.knownIds (r.children.getD [])).1.length)] ++
        (send_message cfg w
          (toString (checkLoop cfg.knownIds (r.children.getD [])).1.length ++
            " 🆕 TICKETS")).1 ++
        (Event.logError "Failed to send message. Trying to send webhook notification..." ::
          (send_webhook_notification cfg w
            (checkLoop cfg.knownIds (r.children.getD [])).1).1) ++
        (if (send_webhook_notification cfg w
            (checkLoop cfg.knownIds (r.children.getD [])).1).2 = true
          then [Event.logError "Failed to send webhook notification",
            Event.logCritical "Failed to send notification. Please check once."]
          else []),
       RunResult.normal) := by
  simp only [successPhase]
  split
  · next h => exact absurd h hne
  · split
    · next h => simp [hsm] at h
    · split
      · next hwh => simp [hwh]
      · next hwh =>
        have hwh' : (send_webhook_notification cfg w
            (checkLoop cfg.knownIds (r.children.getD [])).1).2 = true := by
          cases hx : (send_webhook_notification cfg w
              (checkLoop cfg.knownIds (r.children.getD [])).1).2
          · exact absurd hx hwh
          · rfl
        simp [hwh']

lemma successPhase_of_smsOk (cfg : Config) (w : World) (r : ApiResponse)
    (hne : ¬ (checkLoop cfg.knownIds (r.children.getD [])).1.isEmpty = true)
    (hsm : (send_message cfg w
      (toString (checkLoop cfg.knownIds (r.children.getD [])).1.length ++
        " 🆕 TICKETS")).2 = false) :
    successPhase cfg w r =
      ((checkLoop cfg.knownIds (r.children.getD [])).2 ++
        [Event.logInfo ("Total tickets: " ++ toString (r.children.getD []).length ++
          ", New tickets: " ++
            toString (checkLoop cfg.knownIds (r.children.getD [])).1.length)] ++
        (send_message cfg w
          (toString (checkLoop cfg.knownIds (r.children.getD [])).1.length ++
            " 🆕 TICKETS")).1,
       RunResult.normal) := by
  simp only [successPhase]
  split
  · next h => exact absurd h hne
  · rfl

/-- C10: with `WEBHOOK_URL` unset or empty, the webhook helper only
logs a warning and returns without raising; a run whose primary SMS
raises therefore ends normally with no webhook POST, the warning being
the only signal. -/
theorem C10_webhook_unset (cfg : Config) (w : World) (ts : List Ticket)
    (r : ApiResponse)
    (hurl : cfg.webhookUrl = none ∨ cfg.webhookUrl = some "")
    (hstop : cfg.stopExecution = false)
    (hd : cfg.debugMode = false)
    (hsm : w.smsFails = true)
    (hf : (fetch_tickets w.fetchOutcomes).2 = FetchResult.ok r)
    (hs : ¬ r.status = some false)
    (hne : (checkLoop cfg.knownIds (r.children.getD [])).1 ≠ []) :
    send_webhook_notification cfg w ts =
      ([Event.logWarning "WEBHOOK_URL not set, skipping notification"], false) ∧
    (main cfg w).2 = RunResult.normal ∧
    webhookCalls (main cfg w).1 = [] ∧
    Event.logWarning "WEBHOOK_URL not set, skipping notification" ∈ (main cfg w).1 := by
  have hne' : ¬ (checkLoop cfg.knownIds (r.children.getD [])).1.isEmpty = true := by
    rw [List.isEmpty_iff]; exact hne
  have hsm' : (send_message cfg w
      (toString (checkLoop cfg.knownIds (r.children.getD [])).1.length ++
        " 🆕 TICKETS")).2 = true := by
    rw [send_message_raised, hd, hsm]; rfl
  have hsme := send_message_events cfg w
    (toString (checkLoop cfg.knownIds (r.children.getD [])).1.length ++ " 🆕 TICKETS")
  have hwh := send_webhook_unset cfg w
    (checkLoop cfg.knownIds (r.children.getD [])).1 hurl
  have hsp := successPhase_of_smsFail cfg w r hne' hsm'
  rw [hwh] at hsp
  simp only [List.append_nil] at hsp
  rw [main_ok cfg w r hstop hf hs, hsp]
  refine ⟨send_webhook_unset cfg w ts hurl, rfl, ?_, ?_⟩
  · simp only [webhookCalls_append, fetch_webhookCalls,
      checkLoop_webhookCalls, hsme.2.1, webhookCalls_nil,
      webhookCalls_cons_logInfo, webhookCalls_cons_logError,
      webhookCalls_cons_logWarning, List.append_nil, List.nil_append]
    simp [webhookCalls]
  · apply List.mem_cons_of_mem
    apply List.mem_append_right
    apply List.mem_append_left
    apply List.mem_append_right
    simp

/-- Witness for C10: primary raises, no webhook URL configured. -/
theorem C10_webhook_unset_witness :
    send_webhook_notification cfgPlain wNewTicketSmsFail [sampleTicket1] =
      ([Event.logWarning "WEBHOOK_URL not set, skipping notification"], false) ∧
    (main cfgPlain wNewTicketSmsFail).2 = RunResult.normal ∧
    webhookCalls (main cfgPlain wNewTicketSmsFail).1 = [] ∧
    Event.logWarning "WEBHOOK_URL not set, skipping notification" ∈
      (main cfgPlain wNewTicketSmsFail).1 :=
  C10_webhook_unset cfgPlain wNewTicketSmsFail [sampleTicket1] respNew
    (Or.inl rfl) rfl rfl rfl rfl (by decide) (by decide)

/-- C5 as stated is false: when the primary SMS raises and the webhook
POST fails with a `requests.RequestException`, the secondary attempt
has failed, yet no critical-severity log is emitted (the error is
caught inside the webhook helper and logged at error severity). -/
theorem C5_counterexample :
    webhookCalls (main cfgWebhook wNewTicketBothFail).1 ≠ [] ∧
    wNewTicketBothFail.webhookFailure = some ExcKind.reqExc ∧
    criticalLogs (main cfgWebhook wNewTicketBothFail).1 = [] ∧
    (main cfgWebhook wNewTicketBothFail).2 = RunResult.normal := by
  refine ⟨by decide, rfl, by rfl, by rfl⟩

/-- C5 (amended): if the primary SMS raises on a non-empty new-ticket
list, the webhook is attempted exactly once, carrying the payload built
from the full new-ticket list; the invocation always ends normally with
no further attempt; a critical log is emitted exactly when the webhook
call raises a non-`RequestException` that escapes the helper (an HTTP
delivery failure is caught inside the helper and logged at error
severity, without a critical log). -/
theorem C5_fallback (cfg : Config) (w : World) (r : ApiResponse)
    (url : String)
    (hstop : cfg.stopExecution = false)
    (hd : cfg.debugMode = false)
    (hsm : w.smsFails = true)
    (hf : (fetch_tickets w.fetchOutcomes).2 = FetchResult.ok r)
    (hs : ¬ r.status = some false)
    (hne : (checkLoop cfg.knownIds (r.children.getD [])).1 ≠ [])
    (hurl : cfg.webhookUrl = some url)
    (hu : url ≠ "") :
    webhookCalls (main cfg w).1 =
      [(url, mkPayload url (checkLoop cfg.knownIds (r.children.getD [])).1)] ∧
    (main cfg w).2 = RunResult.normal ∧
    criticalLogs (main cfg w).1 =
      (if w.webhookFailure = some ExcKind.otherExc
        then ["Failed to send notification. Please check once."] else []) := by
  have hne' : ¬ (checkLoop cfg.knownIds (r.children.getD [])).1.isEmpty = true := by
    rw [List.isEmpty_iff]; exact hne
  have hsm' : (send_message cfg w
      (toString (checkLoop cfg.knownIds (r.children.getD [])).1.length ++
        " 🆕 TICKETS")).2 = true := by
    rw [send_message_raised, hd, hsm]; rfl
  have hsme := send_message_events cfg w
    (toString (checkLoop cfg.knownIds (r.children.getD [])).1.length ++ " 🆕 TICKETS")
  have hwh := send_webhook_set cfg w
    (checkLoop cfg.knownIds (r.children.getD [])).1 url hurl hu
  have hwhc := send_webhook_criticalLogs cfg w
    (checkLoop cfg.knownIds (r.children.getD [])).1
  have hsp := successPhase_of_smsFail cfg w r hne' hsm'
  rw [main_ok cfg w r hstop hf hs, hsp]
  refine ⟨?_, rfl, ?_⟩
  · by_cases hwf : w.webhookFailure = some ExcKind.otherExc
    · have hv : (send_webhook_notification cfg w
          (checkLoop cfg.knownIds (r.children.getD [])).1).2 = true := by
        rw [hwh.2.1]; exact decide_eq_true hwf
      simp only [hv, webhookCalls_append, fetch_webhookCalls,
        checkLoop_webhookCalls, hsme.2.1, hwh.1, webhookCalls_nil,
        webhookCalls_cons_logInfo, webhookCalls_cons_logError,
        webhookCalls_cons_logWarning, webhookCalls_cons_logCritical,
        List.append_nil, List.nil_append]
      simp [webhookCalls]
    · have hv : (send_webhook_notification cfg w
          (checkLoop cfg.knownIds (r.children.getD [])).1).2 = false := by
        rw [hwh.2.1]; exact decide_eq_false hwf
      simp only [hv, webhookCalls_append, fetch_webhookCalls,
        checkLoop_webhookCalls, hsme.2.1, hwh.1, webhookCalls_nil,
        webhookCalls_cons_logInfo, webhookCalls_cons_logError,
        webhookCalls_cons_logWarning, webhookCalls_cons_logCritical,
        List.append_nil, List.nil_append]
      simp [webhookCalls]
  · by_cases hwf : w.webhookFailure = some ExcKind.otherExc
    · rw [if_pos hwf]
      have hv : (send_webhook_notification cfg w
          (checkLoop cfg.knownIds (r.children.getD [])).1).2 = true := by
        rw [hwh.2.1]; exact decide_eq_true hwf
      simp only [hv, criticalLogs_append, fetch_criticalLogs,
        checkLoop_criticalLogs, hsme.2.2.1, hwhc, criticalLogs_nil,
        criticalLogs_cons_logInfo, criticalLogs_cons_logError,
        criticalLogs_cons_logWarning, criticalLogs_cons_logCritical,
        List.append_nil, List.nil_append]
      simp [criticalLogs]
    · rw [if_neg hwf]
      have hv : (send_webhook_notification cfg w
          (checkLoop cfg.knownIds (r.children.getD [])).1).2 = false := by
        rw [hwh.2.1]; exact decide_eq_false hwf
      simp only [hv, criticalLogs_append, fetch_criticalLogs,
        checkLoop_criticalLogs, hsme.2.2.1, hwhc, criticalLogs_nil,
        criticalLogs_cons_logInfo, criticalLogs_cons_logError,
        criticalLogs_cons_logWarning, criticalLogs_cons_logCritical,
        List.append_nil, List.nil_append]
      simp [criticalLogs]

/-- Witness for (amended) C5: primary raises, webhook configured and
delivering. -/
theorem C5_fallback_witness :
    webhookCalls (main cfgWebhook wNewTicketSmsFail).1 =
      [("https://example.com/hook", mkPayload "https://example.com/hook"
        (checkLoop cfgWebhook.knownIds (respNew.children.getD [])).1)] ∧
    (main cfgWebhook wNewTicketSmsFail).2 = RunResult.normal ∧
    criticalLogs (main cfgWebhook wNewTicketSmsFail).1 =
      (if wNewTicketSmsFail.webhookFailure = some ExcKind.otherExc
        then ["Failed to send notification. Please check once."] else []) :=
  C5_fallback cfgWebhook wNewTicketSmsFail respNew "https://example.com/hook"
    rfl rfl rfl rfl (by decide) (by decide) rfl (by decide)

lemma dryRun_failure_branch (cfg : Config) (w : World) (cfg₂ : Config)
    (w₂ : World) (s : String) (F : List Event)
    (hd : cfg.debugMode = true)
    (hd₂ : cfg₂.debugMode = false) (hs₂ : w₂.smsFails = false)
    (hFp : primaryBodies F = []) (hFw : webhookCalls F = []) :
    externalSmsBodies (Event.logInfo "Checking for new match tickets..." ::
      (F ++ (failureHandler cfg w s).1)) = [] ∧
    webhookCalls (Event.logInfo "Checking for new match tickets..." ::
      (F ++ (failureHandler cfg w s).1)) = [] ∧
    (failureHandler cfg w s).2 = RunResult.normal ∧
    controlEvents (Event.logInfo "Checking for new match tickets..." ::
      (F ++ (failureHandler cfg w s).1)) =
      controlEvents (Event.logInfo "Checking for new match tickets..." ::
        (F ++ (failureHandler cfg₂ w₂ s).1)) ∧
    (failureHandler cfg₂ w₂ s).2 = RunResult.normal := by
  have h1 : (failureHandler cfg w s).1 = [Event.logError s,
      Event.logInfo "Debug mode is enabled. Skipping sending message and printing to console.",
      Event.smsDebugLog "FAILED"] := by
    simp [failureHandler, send_message, hd]
  have h2 : (failureHandler cfg₂ w₂ s).1 = [Event.logError s,
      Event.logInfo ("Sending message: " ++ "FAILED" ++ " ..."),
      Event.smsSend "FAILED", Event.logInfo "Message sent successfully"] := by
    simp [failureHandler, send_message, hd₂, hs₂]
  refine ⟨?_, ?_, ?_, ?_, ?_⟩
  · rw [h1]
    simp only [externalSmsBodies_cons_logInfo, externalSmsBodies_append,
      externalSmsBodies_nil F hFp, externalSmsBodies_cons_logError,
      externalSmsBodies_cons_smsDebugLog, externalSmsBodies_nil_lit,
      List.nil_append, List.append_nil]
  · rw [h1]
    simp only [webhookCalls_cons_logInfo, webhookCalls_append, hFw,
      webhookCalls_cons_logError, webhookCalls_cons_smsDebugLog,
      webhookCalls_nil, List.nil_append, List.append_nil]
  · rw [failureHandler_result, hd]; rfl
  · rw [h1, h2]
    simp only [controlEvents_cons_logInfo, controlEvents_append,
      controlEvents_cons_logError, controlEvents_cons_smsSend,
      controlEvents_cons_smsDebugLog, controlEvents_nil, List.append_nil]
  · rw [failureHandler_result, hd₂, hs₂]; rfl

lemma dryRun_compare (cfg : Config) (w : World) (cfg₂ : Config) (w₂ : World)
    (hd : cfg.debugMode = true)
    (hd₂ : cfg₂.debugMode = false) (hs₂ : w₂.smsFails = false)
    (hstop₂ : cfg₂.stopExecution = cfg.stopExecution)
    (hK : cfg₂.knownIds = cfg.knownIds)
    (hwo : w₂.fetchOutcomes = w.fetchOutcomes) :
    externalSmsBodies (main cfg w).1 = [] ∧
    webhookCalls (main cfg w).1 = [] ∧
    (main cfg w).2 = RunResult.normal ∧
    controlEvents (main cfg w).1 = controlEvents (main cfg₂ w₂).1 ∧
    (main cfg₂ w₂).2 = RunResult.normal := by
  cases hstop : cfg.stopExecution with
  | true =>
    rw [main_stop cfg w hstop, main_stop cfg₂ w₂ (by rw [hstop₂, hstop])]
    exact ⟨rfl, rfl, rfl, rfl, rfl⟩
  | false =>
    have hstop' : cfg₂.stopExecution = false := by rw [hstop₂, hstop]
    cases hf : (fetch_tickets w.fetchOutcomes).2 with
    | exc k =>
      have hf₂ : (fetch_tickets w₂.fetchOutcomes).2 = FetchResult.exc k := by
        rw [hwo]; exact hf
      rw [main_fetchExc cfg w k hstop hf, main_fetchExc cfg₂ w₂ k hstop' hf₂]
      simp only [hwo]
      exact dryRun_failure_branch cfg w cfg₂ w₂ _ _ hd hd₂ hs₂
        (fetch_primaryBodies _) (fetch_webhookCalls _)
    | retryError =>
      have hf₂ : (fetch_tickets w₂.fetchOutcomes).2 = FetchResult.retryError := by
        rw [hwo]; exact hf
      rw [main_retryError cfg w hstop hf, main_retryError cfg₂ w₂ hstop' hf₂]
      simp only [hwo]
      exact dryRun_failure_branch cfg w cfg₂ w₂ _ _ hd hd₂ hs₂
        (fetch_primaryBodies _) (fetch_webhookCalls _)
    | ok r =>
      have hf₂ : (fetch_tickets w₂.fetchOutcomes).2 = FetchResult.ok r := by
        rw [hwo]; exact hf
      by_cases hsv : r.status = some false
      · rw [main_statusFalse cfg w r hstop hf hsv,
          main_statusFalse cfg₂ w₂ r hstop' hf₂ hsv]
        simp only [hwo]
        exact dryRun_failure_branch cfg w cfg₂ w₂ _ _ hd hd₂ hs₂
          (fetch_primaryBodies _) (fetch_webhookCalls _)
      · rw [main_ok cfg w r hstop hf hsv, main_ok cfg₂ w₂ r hstop' hf₂ hsv]
        simp only [hwo]
        cases hemp : (checkLoop cfg.knownIds (r.children.getD [])).1.isEmpty with
        | true =>
          have hempty : (checkLoop cfg.knownIds (r.children.getD [])).1 = [] :=
            List.isEmpty_iff.mp hemp
          have hempty₂ : (checkLoop cfg₂.knownIds (r.children.getD [])).1 = [] := by
            rw [hK]; exact hempty
          rw [successPhase_of_empty cfg w r hempty,
            successPhase_of_empty cfg₂ w₂ r hempty₂]
          simp only [hK]
          refine ⟨?_, ?_, by trivial, by trivial, by trivial⟩
          · simp only [externalSmsBodies_cons_logInfo, externalSmsBodies_append,
              externalSmsBodies_nil _ (fetch_primaryBodies w.fetchOutcomes),
              externalSmsBodies_nil _
                (checkLoop_primaryBodies cfg.knownIds (r.children.getD [])),
              externalSmsBodies_nil_lit, List.nil_append, List.append_nil]
          · simp only [webhookCalls_cons_logInfo, webhookCalls_append,
              fetch_webhookCalls, checkLoop_webhookCalls, webhookCalls_nil,
              List.nil_append, List.append_nil]
        | false =>
          have hne' : ¬ (checkLoop cfg.knownIds (r.children.getD [])).1.isEmpty = true := by
            rw [hemp]; simp
          have hne₂ : ¬ (checkLoop cfg₂.knownIds (r.children.getD [])).1.isEmpty = true := by
            rw [hK]; exact hne'
          have hsmsA : (send_message cfg w
              (toString (checkLoop cfg.knownIds (r.children.getD [])).1.length ++
                " 🆕 TICKETS")).2 = false := by
            rw [send_message_raised, hd]; rfl
          have hsmsB : (send_message cfg₂ w₂
              (toString (checkLoop cfg₂.knownIds (r.children.getD [])).1.length ++
                " 🆕 TICKETS")).2 = false := by
            rw [send_message_raised, hd₂, hs₂]; rfl
          rw [successPhase_of_smsOk cfg w r hne' hsmsA,
            successPhase_of_smsOk cfg₂ w₂ r hne₂ hsmsB]
          simp only [hK]
          have hdm : ∀ m, send_message cfg w m =
              ([Event.logInfo "Debug mode is enabled. Skipping sending message and printing to console.",
                Event.smsDebugLog m], false) :=
            fun m => send_message_debug cfg w m hd
          have hc1 : ∀ m, controlEvents (send_message cfg w m).1 = [] :=
            fun m => (send_message_events cfg w m).2.2.2
          have hc2 : ∀ m, controlEvents (send_message cfg₂ w₂ m).1 = [] :=
            fun m => (send_message_events cfg₂ w₂ m).2.2.2
          have hw1 : ∀ m, webhookCalls (send_message cfg w m).1 = [] :=
            fun m => (send_message_events cfg w m).2.1
          refine ⟨?_, ?_, by trivial, ?_, by trivial⟩
          · simp only [hdm, externalSmsBodies_cons_logInfo,
              externalSmsBodies_append,
              externalSmsBodies_nil _ (fetch_primaryBodies w.fetchOutcomes),
              externalSmsBodies_nil _
                (checkLoop_primaryBodies cfg.knownIds (r.children.getD [])),
              externalSmsBodies_cons_smsDebugLog, externalSmsBodies_nil_lit,
              List.nil_append, List.append_nil]
          · simp only [webhookCalls_cons_logInfo, webhookCalls_append,
              fetch_webhookCalls, checkLoop_webhookCalls, hw1,
              webhookCalls_nil, List.nil_append, List.append_nil]
          · simp only [controlEvents_cons_logInfo, controlEvents_append, hc1,
              hc2, controlEvents_nil, List.append_nil]

/-- C3: in dry-run (debug) mode every notification attempt made during
a run is a console emission of the message body: the SMS helper only
logs and reports success, the run makes no external SMS call and no
webhook POST, it ends normally, and its control-flow skeleton equals
that of the corresponding non-dry-run in which the SMS delivery
succeeds. -/
theorem C3_dry_run (cfg : Config) (w : World) (hd : cfg.debugMode = true) :
    (∀ m, send_message cfg w m =
      ([Event.logInfo "Debug mode is enabled. Skipping sending message and printing to console.",
        Event.smsDebugLog m], false)) ∧
    externalSmsBodies (main cfg w).1 = [] ∧
    webhookCalls (main cfg w).1 = [] ∧
    (main cfg w).2 = RunResult.normal ∧
    controlEvents (main cfg w).1 =
      controlEvents (main {cfg with debugMode := false}
        {w with smsFails := false}).1 ∧
    (main {cfg with debugMode := false} {w with smsFails := false}).2 =
      RunResult.normal := by
  have h := dryRun_compare cfg w {cfg with debugMode := false}
    {w with smsFails := false} hd rfl rfl rfl rfl rfl
  exact ⟨fun m => send_message_debug cfg w m hd,
    h.1, h.2.1, h.2.2.1, h.2.2.2.1, h.2.2.2.2⟩

/-- Witness for C3 at a concrete dry-run configuration. -/
theorem C3_dry_run_witness :
    send_message cfgDebug wNewTicket "hello" =
      ([Event.logInfo "Debug mode is enabled. Skipping sending message and printing to console.",
        Event.smsDebugLog "hello"], false) ∧
    externalSmsBodies (main cfgDebug wNewTicket).1 = [] ∧
    webhookCalls (main cfgDebug wNewTicket).1 = [] ∧
    (main cfgDebug wNewTicket).2 = RunResult.normal ∧
    controlEvents (main cfgDebug wNewTicket).1 =
      controlEvents (main {cfgDebug with debugMode := false}
        {wNewTicket with smsFails := false}).1 ∧
    (main {cfgDebug with debugMode := false}
      {wNewTicket with smsFails := false}).2 = RunResult.normal :=
  ⟨(C3_dry_run cfgDebug wNewTicket rfl).1 "hello",
   (C3_dry_run cfgDebug wNewTicket rfl).2.1,
   (C3_dry_run cfgDebug wNewTicket rfl).2.2.1,
   (C3_dry_run cfgDebug wNewTicket rfl).2.2.2.1,
   (C3_dry_run cfgDebug wNewTicket rfl).2.2.2.2.1,
   (C3_dry_run cfgDebug wNewTicket rfl).2.2.2.2.2⟩

end TicketNotifier
